import Mathlib

/-!
Shallow embedding of the grid-trading dashboard client
(`src/unnamed/part_000` and `src/components/GridTradingBot.tsx` — two
revisions of the same React component), together with theorems settling
the frozen claims about its synchronization, reconciliation, locking,
error-handling and order-view logic.

Modelling conventions:
* JavaScript numbers are modelled as `Rat` (no claim depends on binary
  floating-point rounding).
* Decimal strings (`price`, `origQty`, `executedQty`, balance amounts)
  stay `String`; `parseFloat` is modelled on plain decimal literals
  (optional sign, digits, optional fractional part), the only shape
  these fields carry.
* `Array.prototype.sort` (stable per ECMA-262) is modelled as a stable
  insertion sort `stableSort`; `String.prototype.localeCompare` as
  code-point lexicographic comparison.
* React `useState` slots become fields of explicit state structures;
  each event handler / fetch callback becomes a state-transition
  function over them, with the fetch outcome (success body, non-2xx
  body, thrown error) passed in as data.
-/

namespace GridBot

/-- `Balance` interface of `src/unnamed/part_000` (lines 5–10): numeric
amounts transmitted as decimal strings. -/
structure Balance where
  currency : String
  availableAmount : String
  frozenAmount : String
  totalAmount : String
deriving DecidableEq, Repr

/-- `Order` interface of `src/unnamed/part_000` (lines 12–21). -/
structure Order where
  symbol : String
  orderId : String
  side : String
  price : String
  origQty : String
  executedQty : String
  type : String
  state : String
deriving DecidableEq, Repr

/-- `stats` sub-object of the `GridStatus` interface
(`src/unnamed/part_000`, lines 37–42). -/
structure GridStats where
  total_trades : Rat
  total_volume : Rat
  total_fees : Rat
  realized_pnl : Rat
deriving DecidableEq, Repr

/-- `GridStatus` interface of `src/unnamed/part_000` (lines 31–53): the
running-state snapshot carried by the status endpoint. -/
structure GridStatus where
  symbol : String
  current_price : Rat
  balance : Balance
  open_orders : List Order
  positions : Rat
  stats : GridStats
  total_amount : Rat
  min_distance : Rat
  max_distance : Rat
  upper_price : Rat
  lower_price : Rat
  grid_spread : Rat
  avg_distance : Rat
  is_running : Bool
  created_at : String
  updated_at : String
deriving DecidableEq, Repr

/-- `GridStatusResponse` interface of `src/unnamed/part_000`
(lines 60–63). `grid_status` is `Option`al: the JavaScript truthiness
test `if (data.grid_status)` distinguishes a present object (truthy)
from an absent / null field (falsy). -/
structure GridStatusResponse where
  is_running : Bool
  grid_status : Option GridStatus
deriving DecidableEq, Repr

/-- The two `useState` slots written by `handleStatusUpdate` in
`src/unnamed/part_000`: `isRunning` (line 75) and `gridStatus`
(line 77). -/
structure StatusState where
  isRunning : Bool
  gridStatus : Option GridStatus
deriving DecidableEq, Repr

/-- `handleStatusUpdate` of `src/unnamed/part_000` (lines 132–140):

```js
if (data.grid_status) { setIsRunning(data.is_running); setGridStatus(data.grid_status); }
else { setIsRunning(false); setGridStatus(null); }
```

The branch is taken on the presence of the `grid_status` snapshot, not
on the `is_running` flag. -/
def handleStatusUpdate (s : StatusState) (data : GridStatusResponse) : StatusState :=
  match data.grid_status with
  | some gs => { s with isRunning := data.is_running, gridStatus := some gs }
  | none => { s with isRunning := false, gridStatus := none }

/-- A concrete `Balance` used to build concrete snapshots. -/
def balanceA : Balance :=
  { currency := "USDT", availableAmount := "100.0", frozenAmount := "0.0",
    totalAmount := "100.0" }

/-- A concrete `GridStatus` snapshot (the previous snapshot in the C1
counterexample run). -/
def gsA : GridStatus :=
  { symbol := "BTCUSDT", current_price := 50000, balance := balanceA,
    open_orders := [], positions := 5, stats := ⟨3, 10, 1, 2⟩,
    total_amount := 100, min_distance := 1/2, max_distance := 10,
    upper_price := 55000, lower_price := 45000, grid_spread := 20,
    avg_distance := 2, is_running := true, created_at := "t0",
    updated_at := "t1" }

/-- A second concrete `GridStatus` snapshot (the one arriving alongside
`is_running = false` in the C1 counterexample payload). -/
def gsB : GridStatus :=
  { gsA with current_price := 49000, is_running := false, updated_at := "t2" }

/-- C1 counterexample. The claim says: reconciling any payload with
`is_running = false` leaves `GridStatus` absent (`null`), regardless of
whether the payload also carries a `grid_status` snapshot. On the
concrete payload `{is_running := false, grid_status := some gsB}` applied
to the previous state `⟨true, some gsA⟩`, `handleStatusUpdate` takes the
snapshot-present branch and stores the snapshot, so `GridStatus` is not
absent — the claim as stated is false. -/
theorem C1_cex :
    ¬ (handleStatusUpdate ⟨true, some gsA⟩
        { is_running := false, grid_status := some gsB }).gridStatus = none := by
  simp [handleStatusUpdate]

/-- C1 (amended): reconciling a payload with `is_running = false` always
yields `isRunning = false`, and `GridStatus` becomes exactly the
payload's `grid_status` field — `none` when the payload carries no
snapshot, the payload's snapshot when one is present. No field of the
old snapshot is ever carried over, but a snapshot arriving alongside
`is_running = false` is adopted rather than cleared, because
`handleStatusUpdate` branches on snapshot presence, not on the flag. -/
theorem C1_amended : ∀ (prev : StatusState) (g : Option GridStatus),
    handleStatusUpdate prev { is_running := false, grid_status := g }
      = { isRunning := false, gridStatus := g } := by
  intro prev g
  cases g <;> rfl

/-- C9: for every payload whose `grid_status` snapshot is absent,
`handleStatusUpdate` sets `isRunning` to `false` and `GridStatus` to
`none` even when the payload's `is_running` flag is `true`: the `else`
branch of lines 136–139 of `src/unnamed/part_000` ignores the flag, so
snapshot presence, not `is_running`, decides the running/stopped
transition. -/
theorem C9_snapshotAbsent : ∀ (prev : StatusState) (b : Bool),
    handleStatusUpdate prev { is_running := b, grid_status := none }
      = { isRunning := false, gridStatus := none } := by
  intro prev b
  rfl

/-- The three mutating operations. `src/unnamed/part_000` line 78 types
the lock slot as `'create' | 'stop' | ''`; the `GridTradingBot.tsx`
revision additionally uses `'cancel'` (line 244). The idle value `''`
is modelled as `none` on `Option OpKind`. -/
inductive OpKind
  | create
  | stop
  | cancel
deriving DecidableEq, Repr

/-- Whether the trigger of a mutating operation is enabled. From the
rendered buttons: the create trigger carries
`disabled={isRunning || operationInProgress !== ''}`
(`src/unnamed/part_000` line 363, `GridTradingBot.tsx` line 416), while
the stop and cancel triggers carry `disabled={operationInProgress !== ''}`
(`src/unnamed/part_000` line 256, `GridTradingBot.tsx` line 326). -/
def opEnabled (lock : Option OpKind) (running : Bool) : OpKind → Bool
  | .create => !running && lock.isNone
  | .stop => lock.isNone
  | .cancel => lock.isNone

/-- The lock-acquisition step of a user click on a mutating trigger. A
disabled DOM button never invokes its `onClick` handler, and each
handler's first statements include `setOperationInProgress(op)`
(`src/unnamed/part_000` lines 145 and 173) before issuing the network
call. So a click acquires the lock and proceeds to its network call
(second component `true`) exactly when the trigger's guard passes;
otherwise both the lock and control flow are untouched. -/
def beginOp (lock : Option OpKind) (running : Bool) (op : OpKind) :
    Option OpKind × Bool :=
  if opEnabled lock running op then (some op, true) else (lock, false)

/-- C2: a second mutating operation invoked while the operation-lock
state is not idle does not acquire the lock and does not proceed to its
network call; `beginOp` issues the call (transitions `idle -> op`) only
from the idle state. So at most one of create/stop/cancel is ever in
flight. -/
theorem C2_lock : ∀ (lock : Option OpKind) (running : Bool) (op : OpKind),
    (lock ≠ none → beginOp lock running op = (lock, false)) ∧
    ((beginOp lock running op).2 = true → lock = none) := by
  intro lock running op
  have hfail : lock ≠ none → beginOp lock running op = (lock, false) := by
    intro h
    cases lock with
    | none => exact absurd rfl h
    | some o => cases op <;> cases running <;> rfl
  refine ⟨hfail, ?_⟩
  intro h2
  by_contra hne
  rw [hfail hne] at h2
  exact Bool.false_ne_true h2

/-- Witness for C2: with a `create` in flight, a `begin(stop)` fails —
the lock stays on `create` and no call is issued. -/
theorem C2_lock_witness :
    (some OpKind.create ≠ (none : Option OpKind)) ∧
    beginOp (some OpKind.create) false OpKind.stop = (some OpKind.create, false) :=
  ⟨by decide, (C2_lock (some OpKind.create) false OpKind.stop).1 (by decide)⟩

/-- Sort keys of the order table (`SortConfig` interface,
`src/unnamed/part_000` lines 55–58). -/
inductive SortKey
  | side
  | price
  | origQty
  | executedQty
  | state
deriving DecidableEq, Repr

/-- Sort direction (`'asc' | 'desc'`). -/
inductive SortDir
  | asc
  | desc
deriving DecidableEq, Repr

/-- `SortConfig` interface of `src/unnamed/part_000` (lines 55–58). -/
structure SortConfig where
  key : SortKey
  direction : SortDir
deriving DecidableEq, Repr

/-- Initial sort configuration (`src/unnamed/part_000` line 81):
`{ key: 'price', direction: 'desc' }`. -/
def sortConfigInit : SortConfig := { key := .price, direction := .desc }

/-- `handleSort` of `src/unnamed/part_000` (lines 222–227):

```js
setSortConfig(current => ({ key,
  direction: current.key === key && current.direction === 'asc' ? 'desc' : 'asc' }));
```
-/
def handleSort (current : SortConfig) (key : SortKey) : SortConfig :=
  { key := key,
    direction :=
      if current.key = key ∧ current.direction = .asc then .desc else .asc }

/-- The opposite direction (used only to state C8). -/
def flipDir : SortDir → SortDir
  | .asc => .desc
  | .desc => .asc

/-- C8: applying `handleSort` with the key already active flips the
direction (so applying it twice restores the original direction), while
applying it with a different key selects that key with direction `asc`;
from the initial configuration `{price, desc}`, sorting by `price` once
yields ascending and a second time yields descending. -/
theorem C8_handleSort :
    (∀ (c : SortConfig) (k : SortKey), c.key = k →
        handleSort c k = ⟨k, flipDir c.direction⟩ ∧
        handleSort (handleSort c k) k = ⟨k, c.direction⟩) ∧
    (∀ (c : SortConfig) (k : SortKey), c.key ≠ k →
        handleSort c k = ⟨k, .asc⟩) ∧
    handleSort sortConfigInit .price = ⟨.price, .asc⟩ ∧
    handleSort (handleSort sortConfigInit .price) .price = ⟨.price, .desc⟩ := by
  refine ⟨?_, ?_, by decide, by decide⟩
  · rintro ⟨ck, cd⟩ k h
    subst h
    cases cd <;> simp [handleSort, flipDir]
  · rintro ⟨ck, cd⟩ k h
    simp only [handleSort]
    simp_all

/-- Witness for C8: both hypothesis forms discharged at concrete
configurations — toggling the active `price` key from `asc` gives
`desc`, and sorting a `price`-keyed configuration by `state` gives
`{state, asc}`. -/
theorem C8_handleSort_witness :
    ((⟨.price, .asc⟩ : SortConfig).key = .price ∧
      handleSort ⟨.price, .asc⟩ .price = ⟨.price, .desc⟩) ∧
    ((⟨.price, .asc⟩ : SortConfig).key ≠ .state ∧
      handleSort ⟨.price, .asc⟩ .state = ⟨.state, .asc⟩) :=
  ⟨⟨rfl, (C8_handleSort.1 ⟨.price, .asc⟩ .price rfl).1⟩,
   ⟨by decide, C8_handleSort.2.1 ⟨.price, .asc⟩ .state (by decide)⟩⟩

/-- Numeric value of a run of decimal digits, most significant first. -/
def natOfDigits (l : List Char) : Nat :=
  l.foldl (fun n c => 10 * n + (c.toNat - 48)) 0

/-- Splits an optional leading sign off a character list. -/
def parseSign : List Char → Bool × List Char
  | '-' :: r => (true, r)
  | '+' :: r => (false, r)
  | l => (false, l)

/-- Model of JavaScript `parseFloat` restricted to plain decimal
literals (optional sign, integer digits, optional `.` and fraction
digits) — the only shape the `price` / `origQty` / `executedQty` /
balance fields carry per the data model. -/
def parseFloat (s : String) : Rat :=
  let (neg, body) := parseSign s.toList
  let intDigits := body.takeWhile Char.isDigit
  let rest := body.dropWhile Char.isDigit
  let fracDigits :=
    match rest with
    | '.' :: r => r.takeWhile Char.isDigit
    | _ => []
  let mag : Rat :=
    mkRat ((natOfDigits intDigits * 10 ^ fracDigits.length + natOfDigits fracDigits : Nat) : Int)
      (10 ^ fracDigits.length)
  if neg then -mag else mag

/-- Code-point lexicographic comparison of character lists (the model of
string collation used for `String.prototype.localeCompare`). -/
def lexCompare : List Char → List Char → Ordering
  | [], [] => .eq
  | [], _ :: _ => .lt
  | _ :: _, [] => .gt
  | a :: as, b :: bs =>
    if a < b then .lt else if b < a then .gt else lexCompare as bs

/-- `a.localeCompare(b)` as used by the sort comparator, modelled as
code-point lexicographic comparison returning -1/0/1. -/
def localeCompare (a b : String) : Rat :=
  match lexCompare a.toList b.toList with
  | .lt => -1
  | .eq => 0
  | .gt => 1

/-- Stable insertion of `a` into `l`: `a` goes before the first element
`b` with `le a b`. -/
def orderedInsertB (le : α → α → Bool) (a : α) : List α → List α
  | [] => [a]
  | b :: l => if le a b then a :: b :: l else b :: orderedInsertB le a l

/-- Stable sort (insertion sort), the model of `Array.prototype.sort`,
which ECMA-262 requires to be stable; for the consistent comparators
used here the stable-sorted result is unique, so any stable sort is a
faithful model. -/
def stableSort (le : α → α → Bool) : List α → List α
  | [] => []
  | a :: l => orderedInsertB le a (stableSort le l)

/-- Side filter (`'ALL' | 'BUY' | 'SELL'`, `src/unnamed/part_000`
line 82). -/
inductive SideFilter
  | all
  | buy
  | sell
deriving DecidableEq, Repr

/-- The string each `SideFilter` value denotes in the source. -/
def sideFilterStr : SideFilter → String
  | .all => "ALL"
  | .buy => "BUY"
  | .sell => "SELL"

/-- `a[sortConfig.key]`: the field of an order selected by a sort key. -/
def orderField (o : Order) : SortKey → String
  | .side => o.side
  | .price => o.price
  | .origQty => o.origQty
  | .executedQty => o.executedQty
  | .state => o.state

/-- The sort comparator of `sortAndFilterOrders`
(`src/unnamed/part_000` lines 204–219): numeric difference of
`parseFloat` values for the `price` / `origQty` / `executedQty` keys,
`localeCompare` otherwise, with operands swapped for `desc`. (The
source's `typeof` guard is always satisfied: every `Order` field is a
string.) -/
def jsCompare (cfg : SortConfig) (a b : Order) : Rat :=
  let aValue := orderField a cfg.key
  let bValue := orderField b cfg.key
  if cfg.key = .price ∨ cfg.key = .origQty ∨ cfg.key = .executedQty then
    match cfg.direction with
    | .asc => parseFloat aValue - parseFloat bValue
    | .desc => parseFloat bValue - parseFloat aValue
  else
    match cfg.direction with
    | .asc => localeCompare aValue bValue
    | .desc => localeCompare bValue aValue

/-- The `le` relation a stable sort must use to agree with JavaScript
`sort(cmp)`: keep `a` no later than `b` exactly when `cmp(a,b) <= 0`. -/
def jsSortLe (cfg : SortConfig) (a b : Order) : Bool :=
  decide (jsCompare cfg a b ≤ 0)

/-- First filter stage of `sortAndFilterOrders` (lines 197–199):
`if (filterSide !== 'ALL') filter(order => order.side === filterSide)`. -/
def filterBySide (fs : SideFilter) (orders : List Order) : List Order :=
  if fs ≠ .all then orders.filter (fun o => o.side == sideFilterStr fs) else orders

/-- Second filter stage of `sortAndFilterOrders` (lines 200–202):
`if (filterStatus !== 'ALL') filter(order => order.state === filterStatus)`. -/
def filterByStatus (fst : String) (orders : List Order) : List Order :=
  if fst ≠ ("ALL") then orders.filter (fun o => o.state == fst) else orders

/-- `sortAndFilterOrders` of `src/unnamed/part_000` (lines 194–220):
copy, filter by side, filter by status, stable-sort with the
comparator. -/
def sortAndFilterOrders (fs : SideFilter) (fst : String) (cfg : SortConfig)
    (orders : List Order) : List Order :=
  stableSort (jsSortLe cfg) (filterByStatus fst (filterBySide fs orders))

/-- `itemsPerPage` (`src/unnamed/part_000` line 80). -/
def itemsPerPage : Nat := 5

/-- `Array.prototype.slice(start, stop)` for in-range indices. -/
def jsSlice (l : List α) (start stop : Nat) : List α :=
  (l.drop start).take (stop - start)

/-- `paginatedOrders` of `src/unnamed/part_000` (lines 230–235):
`sortAndFilterOrders(openOrders).slice((currentPage-1)*itemsPerPage,
currentPage*itemsPerPage)`. -/
def paginatedOrders (fs : SideFilter) (fst : String) (cfg : SortConfig)
    (orders : List Order) (currentPage : Nat) : List Order :=
  jsSlice (sortAndFilterOrders fs fst cfg orders)
    ((currentPage - 1) * itemsPerPage) (currentPage * itemsPerPage)

/-- Per the spec's words: the keys compared numerically. -/
def specNumericKey : SortKey → Bool
  | .price => true
  | .origQty => true
  | .executedQty => true
  | _ => false

/-- Per the spec's words: the sort ordering — numeric comparison of the
parsed decimal strings for `price` / `origQty` / `executedQty`,
lexicographic comparison otherwise, in the active direction. -/
def specLe (cfg : SortConfig) (a b : Order) : Bool :=
  let av := orderField a cfg.key
  let bv := orderField b cfg.key
  if specNumericKey cfg.key then
    match cfg.direction with
    | .asc => decide (parseFloat av ≤ parseFloat bv)
    | .desc => decide (parseFloat bv ≤ parseFloat av)
  else
    match cfg.direction with
    | .asc => decide (lexCompare av.toList bv.toList ≠ .gt)
    | .desc => decide (lexCompare bv.toList av.toList ≠ .gt)

/-- Per the spec's words: `derive(orders, filter, sort, page)` — (1)
filter by side if not ALL; (2) filter by status if not ALL; (3)
stable-sort by the active key in the active direction; (4) slice to the
requested page using the fixed page size. -/
def specDerive (orders : List Order) (fs : SideFilter) (fst : String)
    (cfg : SortConfig) (page : Nat) : List Order :=
  let step1 :=
    if fs = .all then orders
    else orders.filter (fun o => o.side == sideFilterStr fs)
  let step2 :=
    if fst = ("ALL") then step1
    else step1.filter (fun o => o.state == fst)
  let sorted := stableSort (specLe cfg) step2
  (sorted.drop ((page - 1) * itemsPerPage)).take itemsPerPage

/-- The code's sort relation agrees pointwise with the spec's. -/
theorem jsSortLe_eq_specLe (cfg : SortConfig) (a b : Order) :
    jsSortLe cfg a b = specLe cfg a b := by
  have hnum : ∀ x y : Rat, decide (x - y ≤ 0) = decide (x ≤ y) := fun x y =>
    decide_eq_decide.mpr sub_nonpos
  have hlex : ∀ s t : String,
      decide (localeCompare s t ≤ 0) = decide (lexCompare s.toList t.toList ≠ .gt) := by
    intro s t
    unfold localeCompare
    rcases h : lexCompare s.toList t.toList <;> decide
  rcases cfg with ⟨k, d⟩
  cases k <;> cases d <;>
    first
    | exact hnum _ _
    | exact hlex _ _

/-- An order carrying a given price (remaining fields fixed), used for
the C6 example list. -/
def mkOrderP (p : String) : Order :=
  { symbol := "BTCUSDT", orderId := p, side := "BUY", price := p,
    origQty := "1", executedQty := "0", type := "LIMIT", state := "NEW" }

/-- The C6 example list: orders with prices "10", "5", "8". -/
def ordersC6 : List Order := [mkOrderP ("10"), mkOrderP ("5"), mkOrderP ("8")]

/-- C6: for every order list, filter, sort configuration and page number
(≥ 1), the page the component derives (`paginatedOrders`, built from
`sortAndFilterOrders`) equals the spec's fixed pipeline `specDerive`:
filter by side if not ALL, then by status if not ALL, then stable-sort
by the active key — numerically for `price`/`origQty`/`executedQty`
after parsing the decimal strings, lexicographically otherwise — in the
active direction, then slice to the page. In particular deriving orders
with prices "10", "5", "8" sorted by `price` ascending yields the
prices in order 5, 8, 10. -/
theorem C6_derive :
    (∀ (orders : List Order) (fs : SideFilter) (fst : String) (cfg : SortConfig)
        (page : Nat), 1 ≤ page →
        paginatedOrders fs fst cfg orders page = specDerive orders fs fst cfg page) ∧
    (paginatedOrders .all ("ALL") ⟨.price, .asc⟩ ordersC6 1).map Order.price
      = [("5"), ("8"), ("10")] := by
  have main : ∀ (orders : List Order) (fs : SideFilter) (fst : String)
      (cfg : SortConfig) (page : Nat), 1 ≤ page →
      paginatedOrders fs fst cfg orders page = specDerive orders fs fst cfg page := by
    intro orders fs fst cfg page hp
    have hle : jsSortLe cfg = specLe cfg :=
      funext fun a => funext fun b => jsSortLe_eq_specLe cfg a b
    have h5 : page * itemsPerPage - (page - 1) * itemsPerPage = itemsPerPage := by
      unfold itemsPerPage
      omega
    unfold paginatedOrders specDerive sortAndFilterOrders jsSlice filterBySide filterByStatus
    rw [hle, h5]
    by_cases hfs : fs = .all <;> by_cases hfst : fst = ("ALL") <;> simp [hfs, hfst]
  refine ⟨main, ?_⟩
  rw [main ordersC6 .all ("ALL") ⟨.price, .asc⟩ 1 (le_refl 1)]
  decide

/-- Witness for C6: the pipeline equality applied at the example list,
page 1 (discharging `1 ≤ page` there). -/
theorem C6_derive_witness :
    (1 : Nat) ≤ 1 ∧
    paginatedOrders .all ("ALL") ⟨.price, .asc⟩ ordersC6 1
      = specDerive ordersC6 .all ("ALL") ⟨.price, .asc⟩ 1 :=
  ⟨le_refl 1, C6_derive.1 ordersC6 .all ("ALL") ⟨.price, .asc⟩ 1 (le_refl 1)⟩

/-- The `useState` slots the order view reads: `openOrders` (line 67),
`currentPage` (line 79), `sortConfig` (line 81), `filterSide` (line 82)
and `filterStatus` (line 83) of `src/unnamed/part_000`. -/
structure PageState where
  openOrders : List Order
  currentPage : Nat
  sortConfig : SortConfig
  filterSide : SideFilter
  filterStatus : String
deriving DecidableEq, Repr

/-- `totalPages` (`src/unnamed/part_000` line 229):
`Math.ceil((openOrders?.length || 0) / itemsPerPage)` — note it divides
the UNfiltered list length. -/
def totalPages (s : PageState) : Nat :=
  (s.openOrders.length + (itemsPerPage - 1)) / itemsPerPage

/-- The events that can reach the order-view state: a side- or
status-filter change (whose `useEffect` on `[filterSide, filterStatus]`,
lines 237–239, resets `currentPage` to 1), a `handleSort` click, a click
on the Previous / Next pagination buttons (lines 637–657), and a
wholesale replacement of the order list by a fetch/poll
(`setOpenOrders`). -/
inductive PageEvent
  | setSide (f : SideFilter)
  | setStatus (f : String)
  | sortBy (k : SortKey)
  | prevClick
  | nextClick
  | replaceOrders (l : List Order)
deriving DecidableEq, Repr

/-- One event applied to the view state, from the source:
* filter changes reset `currentPage` to 1 (the effect at lines 237–239);
* `handleSort` rewrites `sortConfig` only (lines 222–227);
* the pagination buttons are rendered only when `totalPages > 1`
  (line 637); Previous is disabled at `currentPage === 1` and its
  handler is `setCurrentPage(p => Math.max(1, p - 1))` (lines 639–641);
  Next is disabled at `currentPage === totalPages` and its handler is
  `setCurrentPage(p => Math.min(totalPages, p + 1))` (lines 649–651) —
  a disabled or unrendered button does nothing;
* an order-list replacement stores the new list and touches nothing
  else (no clamping of `currentPage`). -/
def pageStep (s : PageState) : PageEvent → PageState
  | .setSide f => { s with filterSide := f, currentPage := 1 }
  | .setStatus f => { s with filterStatus := f, currentPage := 1 }
  | .sortBy k => { s with sortConfig := handleSort s.sortConfig k }
  | .prevClick =>
      if totalPages s > 1 ∧ s.currentPage ≠ 1 then
        { s with currentPage := max 1 (s.currentPage - 1) }
      else s
  | .nextClick =>
      if totalPages s > 1 ∧ s.currentPage ≠ totalPages s then
        { s with currentPage := min (totalPages s) (s.currentPage + 1) }
      else s
  | .replaceOrders l => { s with openOrders := l }

/-- The initial view state (`useState` initialisers, lines 67–83). -/
def pageInit : PageState :=
  { openOrders := [], currentPage := 1, sortConfig := sortConfigInit,
    filterSide := .all, filterStatus := "ALL" }

/-- The view state after a sequence of events from the initial state. -/
def runPage (evs : List PageEvent) : PageState :=
  evs.foldl pageStep pageInit

/-- Number of orders surviving the two filter stages. -/
def filteredCount (s : PageState) : Nat :=
  (filterByStatus s.filterStatus (filterBySide s.filterSide s.openOrders)).length

/-- The claim's page bound: `max 1 (ceil(count(filtered orders) / itemsPerPage))`. -/
def specPageBound (s : PageState) : Nat :=
  max 1 ((filteredCount s + (itemsPerPage - 1)) / itemsPerPage)

/-- The code's own page invariant: the bound it maintains uses
`totalPages`, i.e. the UNfiltered order count. -/
def pageInv (s : PageState) : Prop :=
  1 ≤ s.currentPage ∧ s.currentPage ≤ max 1 (totalPages s)

/-- The C3 counterexample run: adopt six orders, go to page 2, then a
poll replaces the list with a single order. -/
def cexEventsC3 : List PageEvent :=
  [.replaceOrders [mkOrderP ("1"), mkOrderP ("2"), mkOrderP ("3"),
      mkOrderP ("4"), mkOrderP ("5"), mkOrderP ("6")],
   .nextClick,
   .replaceOrders [mkOrderP ("1")]]

/-- C3 counterexample. The claim says that after every sequence of
filter changes, sort changes, page navigations and order-list
replacements, `currentPage ≤ max 1 (ceil(filteredCount / itemsPerPage))`.
After the concrete run `cexEventsC3` the page is 2 while the bound is 1:
an order-list replacement does not re-clamp `currentPage`. -/
theorem C3_cex :
    (runPage cexEventsC3).currentPage = 2 ∧
    specPageBound (runPage cexEventsC3) = 1 ∧
    ¬ (runPage cexEventsC3).currentPage ≤ specPageBound (runPage cexEventsC3) := by
  refine ⟨by decide, by decide, by decide⟩

/-- One event keeps `currentPage ≥ 1`. -/
theorem pageStep_one_le (s : PageState) (e : PageEvent)
    (h : 1 ≤ s.currentPage) : 1 ≤ (pageStep s e).currentPage := by
  cases e with
  | setSide f => exact le_refl 1
  | setStatus f => exact le_refl 1
  | sortBy k => exact h
  | prevClick =>
    simp only [pageStep]
    split
    · exact Nat.le_max_left 1 _
    · exact h
  | nextClick =>
    simp only [pageStep]
    split
    · rename_i hg
      obtain ⟨hT, _⟩ := hg
      show 1 ≤ min (totalPages s) (s.currentPage + 1)
      omega
    · exact h
  | replaceOrders l => exact h

/-- C3 (amended): `1 ≤ currentPage` holds after every event sequence;
any filter change resets `currentPage` to 1; every event other than an
order-list replacement preserves the bound the code actually enforces,
`1 ≤ currentPage ≤ max 1 totalPages` — where `totalPages` is computed
from the UNfiltered order count — while an order-list replacement leaves
`currentPage` untouched and can therefore leave it above the claimed
bound (the page then renders as an empty slice rather than faulting, as
the last conjunct shows: an empty order list always yields an empty
page). -/
theorem C3_amended :
    (∀ evs : List PageEvent, 1 ≤ (runPage evs).currentPage) ∧
    (∀ (s : PageState) (f : SideFilter), (pageStep s (.setSide f)).currentPage = 1) ∧
    (∀ (s : PageState) (f : String), (pageStep s (.setStatus f)).currentPage = 1) ∧
    (∀ s : PageState, pageInv s →
      pageInv (pageStep s .prevClick) ∧
      pageInv (pageStep s .nextClick) ∧
      (∀ k, pageInv (pageStep s (.sortBy k))) ∧
      (∀ f, pageInv (pageStep s (.setSide f))) ∧
      (∀ f, pageInv (pageStep s (.setStatus f)))) ∧
    (∀ (fs : SideFilter) (fst : String) (cfg : SortConfig) (page : Nat),
      paginatedOrders fs fst cfg [] page = []) := by
  refine ⟨?_, fun s f => rfl, fun s f => rfl, ?_, ?_⟩
  · have hfold : ∀ (evs : List PageEvent) (s : PageState),
        1 ≤ s.currentPage → 1 ≤ (evs.foldl pageStep s).currentPage := by
      intro evs
      induction evs with
      | nil => intro s h; exact h
      | cons e rest ih =>
        intro s h
        exact ih (pageStep s e) (pageStep_one_le s e h)
    intro evs
    exact hfold evs pageInit (le_refl 1)
  · rintro s ⟨h1, h2⟩
    refine ⟨?_, ?_, fun k => ⟨h1, h2⟩,
      fun f => ⟨le_refl 1, Nat.le_max_left 1 _⟩,
      fun f => ⟨le_refl 1, Nat.le_max_left 1 _⟩⟩
    · simp only [pageStep]
      split
      · refine ⟨Nat.le_max_left 1 _, ?_⟩
        show max 1 (s.currentPage - 1) ≤ max 1 (totalPages s)
        omega
      · exact ⟨h1, h2⟩
    · simp only [pageStep]
      split
      · rename_i hg
        obtain ⟨hT, _⟩ := hg
        constructor
        · show 1 ≤ min (totalPages s) (s.currentPage + 1)
          omega
        · show min (totalPages s) (s.currentPage + 1) ≤ max 1 (totalPages s)
          omega
      · exact ⟨h1, h2⟩
  · intro fs fst cfg page
    unfold paginatedOrders jsSlice sortAndFilterOrders filterByStatus filterBySide
    split <;> split <;> simp [stableSort]

/-- Witness for C3 (amended): the invariant holds at the initial state
and is preserved by a Previous click there. -/
theorem C3_amended_witness :
    pageInv pageInit ∧ pageInv (pageStep pageInit .prevClick) :=
  ⟨⟨le_refl 1, Nat.le_max_left 1 _⟩,
    (C3_amended.2.2.2.1 pageInit ⟨le_refl 1, Nat.le_max_left 1 _⟩).1⟩

/-- A JavaScript runtime value that could sit in the `openOrders` state
slot if the code ever stored one: an array of orders, `null`,
`undefined`, or some other non-array value. The claim is that only the
first shape is ever reachable. -/
inductive JsVal
  | arrV (l : List Order)
  | nullV
  | undefV
  | otherV
deriving DecidableEq, Repr

/-- Whether a runtime value is an array (`Array.isArray`). -/
def isArrayV : JsVal → Bool
  | .arrV _ => true
  | _ => false

/-- The JSON body a 2xx orders response can carry: an array of orders or
any non-array value. -/
inductive OrdersBody
  | arr (l : List Order)
  | nonArr
deriving DecidableEq, Repr

/-- The fetch outcomes that write (or decline to write) `openOrders`:
* `ordersOk b` — the orders endpoint resolved 2xx with JSON body `b`
  (`GridTradingBot.tsx` lines 130–131: `setOpenOrders(Array.isArray(data)
  ? data : [])`);
* `ordersFail` — the orders call threw (transport failure or non-2xx,
  which line 128 turns into a throw); the catch at line 134 runs
  `setOpenOrders([])`;
* `statusAdopt oo` — a status payload whose snapshot carries
  `open_orders` typed as a sequence per the `GridStatus` interface;
  adopted only when present/truthy (`GridTradingBot.tsx` lines 174–176,
  `src/unnamed/part_000` lines 108–110), otherwise left alone;
* `statusFail` — a failed status poll, which never touches
  `openOrders`. -/
inductive FetchEvent
  | ordersOk (b : OrdersBody)
  | ordersFail
  | statusAdopt (oo : Option (List Order))
  | statusFail
deriving DecidableEq, Repr

/-- The `openOrders` slot, in its JavaScript value space. -/
structure FetchState where
  openOrders : JsVal
deriving DecidableEq, Repr

/-- Initial state: `useState<Order[]>([])` (`GridTradingBot.tsx`
line 46, `src/unnamed/part_000` line 67). -/
def fetchInitState : FetchState := ⟨.arrV []⟩

/-- One fetch outcome applied to the `openOrders` slot, from the source
lines cited on `FetchEvent`. -/
def fetchStep (s : FetchState) : FetchEvent → FetchState
  | .ordersOk b =>
      ⟨.arrV (match b with | .arr l => l | .nonArr => [])⟩
  | .ordersFail => ⟨.arrV []⟩
  | .statusAdopt oo =>
      match oo with
      | some l => ⟨.arrV l⟩
      | none => s
  | .statusFail => s

/-- The slot after a sequence of fetch outcomes from the initial
state. -/
def runFetch (evs : List FetchEvent) : FetchState :=
  evs.foldl fetchStep fetchInitState

/-- C4: for every sequence of fetch outcomes — success, failure
(transport or non-2xx), a success body that is not an array, snapshot
adoptions — `openOrders` is always an array, never null / undefined /
non-array; a failed or non-array orders response is stored as the empty
array; and a snapshot's `open_orders` field is adopted exactly as the
sequence it is typed as. -/
theorem C4_openOrders :
    (∀ evs : List FetchEvent, isArrayV (runFetch evs).openOrders = true) ∧
    (∀ s : FetchState, (fetchStep s .ordersFail).openOrders = .arrV []) ∧
    (∀ s : FetchState, (fetchStep s (.ordersOk .nonArr)).openOrders = .arrV []) ∧
    (∀ (s : FetchState) (l : List Order),
      (fetchStep s (.ordersOk (.arr l))).openOrders = .arrV l) ∧
    (∀ (s : FetchState) (l : List Order),
      (fetchStep s (.statusAdopt (some l))).openOrders = .arrV l) := by
  refine ⟨?_, fun s => rfl, fun s => rfl, fun s l => rfl, fun s l => rfl⟩
  have hfold : ∀ (evs : List FetchEvent) (s : FetchState),
      isArrayV s.openOrders = true →
      isArrayV ((evs.foldl fetchStep s)).openOrders = true := by
    intro evs
    induction evs with
    | nil => intro s h; exact h
    | cons e rest ih =>
      intro s h
      refine ih (fetchStep s e) ?_
      cases e with
      | ordersOk b => rfl
      | ordersFail => rfl
      | statusAdopt oo => cases oo with
        | some l => rfl
        | none => exact h
      | statusFail => exact h
  intro evs
  exact hfold evs fetchInitState rfl

/-- Boolean list-prefix test. -/
def listPrefixB [BEq α] : List α → List α → Bool
  | [], _ => true
  | _ :: _, [] => false
  | a :: as, b :: bs => a == b && listPrefixB as bs

/-- Boolean list-infix test (does `needle` occur contiguously?). -/
def listInfixB [BEq α] (needle : List α) : List α → Bool
  | [] => listPrefixB needle []
  | b :: bs => listPrefixB needle (b :: bs) || listInfixB needle bs

/-- `s.includes(needle)` of JavaScript: substring containment. -/
def strContains (s needle : String) : Bool :=
  listInfixB needle.toList s.toList

/-- A thrown JavaScript value as the catch blocks see it: an `Error`
instance carrying a message, or anything else (`instanceof Error`
false). -/
inductive JsError
  | errObj (msg : String)
  | nonErr
deriving DecidableEq, Repr

/-- `error instanceof Error ? error.message : dflt`. -/
def errMsgOr (e : JsError) (dflt : String) : String :=
  match e with
  | .errObj m => m
  | .nonErr => dflt

/-- The catch branch of the routine-poll `fetchGridStatus` of
`src/unnamed/part_000` (lines 126–129): it unconditionally runs
`setError(error instanceof Error ? error.message : 'Failed to fetch
grid status')` — every poll failure, transport-level included, replaces
the displayed error. -/
def pollCatchV1 (_prevError : Option String) (e : JsError) : Option String :=
  some (errMsgOr e ("Failed to fetch grid status"))

/-- The fixed message the `GridTradingBot.tsx` poll shows for a
non-transport failure (line 206). -/
def connectionLostMsg : String :=
  "Failed to fetch grid status. The connection to the server might be lost."

/-- The substring the `GridTradingBot.tsx` poll uses to classify a
failure as transport-level (line 205); browser `fetch` rejects with a
`TypeError` whose message contains it, and the non-2xx path of the same
function throws `new Error('Failed to fetch grid status')`, which also
contains it. -/
def netErrNeedle : String := "Failed to fetch"

/-- The catch branch of `fetchGridStatus` of `GridTradingBot.tsx`
(lines 202–208): `if (error instanceof Error &&
!error.message.includes('Failed to fetch')) setError(<fixed message>)`;
in every other case the displayed error is left untouched. -/
def pollCatchTsx (prevError : Option String) (e : JsError) : Option String :=
  match e with
  | .errObj m =>
      if strContains m netErrNeedle then prevError else some connectionLostMsg
  | .nonErr => prevError

/-- C5 counterexample. The claim says a routine status poll failing with
a transport-level error leaves the user-visible message unchanged. In
the `src/unnamed/part_000` revision the routine poll's catch always
calls `setError`: with no message displayed, a transport failure (the
browser's `TypeError` with message "Failed to fetch") makes the message
become that text — it does not stay unchanged. -/
theorem C5_cex :
    pollCatchV1 none (.errObj ("Failed to fetch")) = some ("Failed to fetch") ∧
    pollCatchV1 none (.errObj ("Failed to fetch")) ≠ none := by
  constructor <;> simp [pollCatchV1, errMsgOr]

/-- C5 (amended): in the `GridTradingBot.tsx` revision, a routine poll
failure whose message contains "Failed to fetch" — which covers
transport-level failures and also the non-2xx path, since that path
throws an error with such a message — leaves the displayed error
unchanged, as does a thrown non-`Error` value; any other thrown `Error`
(e.g. a body-parse failure) sets one fixed connection-lost message,
regardless of what is currently displayed. In the
`src/unnamed/part_000` revision, every routine poll failure sets the
displayed error to the failure's message. -/
theorem C5_amended :
    (∀ (prev : Option String) (m : String), strContains m netErrNeedle = true →
      pollCatchTsx prev (.errObj m) = prev) ∧
    (∀ (prev : Option String) (m : String), strContains m netErrNeedle = false →
      pollCatchTsx prev (.errObj m) = some connectionLostMsg) ∧
    (∀ prev : Option String, pollCatchTsx prev .nonErr = prev) ∧
    (∀ (prev : Option String) (m : String),
      pollCatchV1 prev (.errObj m) = some m) := by
  refine ⟨?_, ?_, fun prev => rfl, fun prev m => rfl⟩
  · intro prev m h
    simp [pollCatchTsx, h]
  · intro prev m h
    simp [pollCatchTsx, h]

/-- Witness for C5 (amended): a transport-style message is suppressed
(the displayed message stays what it was) while a parse-style message
sets the fixed connection-lost text. -/
theorem C5_amended_witness :
    (strContains ("Failed to fetch") netErrNeedle = true ∧
      pollCatchTsx (some connectionLostMsg) (.errObj ("Failed to fetch"))
        = some connectionLostMsg) ∧
    (strContains ("Unexpected token") netErrNeedle = false ∧
      pollCatchTsx none (.errObj ("Unexpected token"))
        = some connectionLostMsg) :=
  ⟨⟨by decide,
      C5_amended.1 (some connectionLostMsg) ("Failed to fetch") (by decide)⟩,
   ⟨by decide, C5_amended.2.1 none ("Unexpected token") (by decide)⟩⟩

/-- JavaScript `v || dflt` on an optional string: the default is taken
when the field is absent or the empty string (falsy). -/
def jsOrDefault (v : Option String) (dflt : String) : String :=
  match v with
  | some m => if m = ("") then dflt else m
  | none => dflt

/-- The component state a mutating operation touches: `isRunning`,
`gridStatus`, `error`, the operation lock, and (for the tsx revision's
post-operation refetch) `openOrders`. -/
structure BotState where
  isRunning : Bool
  gridStatus : Option GridStatus
  error : Option String
  operationInProgress : Option OpKind
  openOrders : List Order
deriving DecidableEq, Repr

/-- How a mutating fetch settles: 2xx with a parsed status payload,
non-2xx with a parsed `{detail?}` body, or a throw (transport failure or
body-parse failure). -/
inductive FetchOutcome
  | ok (resp : GridStatusResponse)
  | httpErr (detail : Option String)
  | thrown (e : JsError)
deriving DecidableEq, Repr

/-- `Array.isArray(data) ? data : []` applied to a refetched orders
body. -/
def ordersOfBody : OrdersBody → List Order
  | .arr l => l
  | .nonArr => []

/-- `createGrid` of `src/unnamed/part_000` (lines 142–169): try —
`setError(null)`, `setOperationInProgress('create')`, POST; on 2xx,
`handleStatusUpdate(data)`; on non-2xx, throw
`Error(errorData.detail || 'Failed to create grid')`; catch —
`setError(message)`, `setIsRunning(false)`; finally —
`setOperationInProgress('')`. -/
def createGrid (s : BotState) (o : FetchOutcome) : BotState :=
  let s1 := { s with error := none, operationInProgress := some OpKind.create }
  let s2 :=
    match o with
    | .ok resp =>
        let r := handleStatusUpdate ⟨s1.isRunning, s1.gridStatus⟩ resp
        { s1 with isRunning := r.isRunning, gridStatus := r.gridStatus }
    | .httpErr d =>
        { s1 with error := some (jsOrDefault d ("Failed to create grid")),
                  isRunning := false }
    | .thrown e =>
        { s1 with error := some (errMsgOr e ("Failed to create grid")),
                  isRunning := false }
  { s2 with operationInProgress := none }

/-- `stopGrid` of `src/unnamed/part_000` (lines 171–192): try —
`setOperationInProgress('stop')`, `setError(null)`, POST; on 2xx,
`setIsRunning(false)`, `setGridStatus(null)`; on non-2xx, throw
`Error(errorData.detail || 'Failed to stop grid')`; catch —
`setError(message)`; finally — `setOperationInProgress('')`. -/
def stopGrid (s : BotState) (o : FetchOutcome) : BotState :=
  let s1 := { s with operationInProgress := some OpKind.stop, error := none }
  let s2 :=
    match o with
    | .ok _ => { s1 with isRunning := false, gridStatus := none }
    | .httpErr d =>
        { s1 with error := some (jsOrDefault d ("Failed to stop grid")) }
    | .thrown e =>
        { s1 with error := some (errMsgOr e ("Failed to stop grid")) }
  { s2 with operationInProgress := none }

/-- How `cancelGrid` of `GridTradingBot.tsx` settles: DELETE 2xx then a
successful orders refetch with body `b`; DELETE 2xx but the refetch
threw (its own catch stores `[]` and rethrows, lines 132–136); DELETE
non-2xx (line 250 throws the fixed message); or the DELETE itself
threw. -/
inductive CancelOutcome
  | ok (b : OrdersBody)
  | okRefetchFail (e : JsError)
  | httpErr
  | thrown (e : JsError)
deriving DecidableEq, Repr

/-- `cancelGrid` of `GridTradingBot.tsx` (lines 242–261): try —
`setOperationInProgress('cancel')`, DELETE; on non-2xx throw
`Error('Failed to cancel grid')`; on 2xx `setIsRunning(false)` then
`await fetchOpenOrders()`; catch — `setError(message)`; finally —
`setOperationInProgress('')`. -/
def cancelGrid (s : BotState) (o : CancelOutcome) : BotState :=
  let s1 := { s with operationInProgress := some OpKind.cancel }
  let s2 :=
    match o with
    | .ok b => { s1 with isRunning := false, openOrders := ordersOfBody b }
    | .okRefetchFail e =>
        { s1 with isRunning := false, openOrders := [],
                  error := some (errMsgOr e ("Failed to cancel grid")) }
    | .httpErr => { s1 with error := some ("Failed to cancel grid") }
    | .thrown e =>
        { s1 with error := some (errMsgOr e ("Failed to cancel grid")) }
  { s2 with operationInProgress := none }

/-- How the tsx `stopGrid` settles: 2xx (body parsed, then a successful
orders refetch with body `b`); 2xx but the refetch threw; non-2xx with a
parsed `{detail?}` body; or a throw (transport or body-parse failure). -/
inductive StopTsxOutcome
  | ok (b : OrdersBody)
  | okRefetchFail (e : JsError)
  | httpErr (detail : Option String)
  | thrown (e : JsError)
deriving DecidableEq, Repr

/-- `stopGrid` of `GridTradingBot.tsx` (lines 263–284): try —
`setOperationInProgress('stop')`, POST, parse body; if 2xx,
`setIsRunning(false)`, `setGridStatus(null)`, `await fetchOpenOrders()`;
else `setError(data.detail || 'Failed to stop grid')`; catch —
`setError(message)`; finally — `setOperationInProgress('')`. -/
def stopGridTsx (s : BotState) (o : StopTsxOutcome) : BotState :=
  let s1 := { s with operationInProgress := some OpKind.stop }
  let s2 :=
    match o with
    | .ok b =>
        { s1 with isRunning := false, gridStatus := none,
                  openOrders := ordersOfBody b }
    | .okRefetchFail e =>
        { s1 with isRunning := false, gridStatus := none, openOrders := [],
                  error := some (errMsgOr e ("Failed to stop grid")) }
    | .httpErr d =>
        { s1 with error := some (jsOrDefault d ("Failed to stop grid")) }
    | .thrown e =>
        { s1 with error := some (errMsgOr e ("Failed to stop grid")) }
  { s2 with operationInProgress := none }

/-- C7: every mutating operation — `createGrid` and `stopGrid` of
`src/unnamed/part_000`, `cancelGrid` and `stopGrid` of
`GridTradingBot.tsx` — returns the operation lock to idle on every exit
path (success, non-2xx, or thrown error), and every error exit stores
the operation's error message as the displayed error. -/
theorem C7_lockRelease :
    (∀ (s : BotState) (o : FetchOutcome),
      (createGrid s o).operationInProgress = none) ∧
    (∀ (s : BotState) (o : FetchOutcome),
      (stopGrid s o).operationInProgress = none) ∧
    (∀ (s : BotState) (o : CancelOutcome),
      (cancelGrid s o).operationInProgress = none) ∧
    (∀ (s : BotState) (o : StopTsxOutcome),
      (stopGridTsx s o).operationInProgress = none) ∧
    (∀ (s : BotState) (d : Option String),
      (createGrid s (.httpErr d)).error
        = some (jsOrDefault d ("Failed to create grid"))) ∧
    (∀ (s : BotState) (e : JsError),
      (createGrid s (.thrown e)).error
        = some (errMsgOr e ("Failed to create grid"))) ∧
    (∀ (s : BotState) (d : Option String),
      (stopGrid s (.httpErr d)).error
        = some (jsOrDefault d ("Failed to stop grid"))) ∧
    (∀ (s : BotState) (e : JsError),
      (stopGrid s (.thrown e)).error
        = some (errMsgOr e ("Failed to stop grid"))) ∧
    (∀ s : BotState,
      (cancelGrid s .httpErr).error = some ("Failed to cancel grid")) ∧
    (∀ (s : BotState) (e : JsError),
      (cancelGrid s (.thrown e)).error
        = some (errMsgOr e ("Failed to cancel grid"))) ∧
    (∀ (s : BotState) (e : JsError),
      (cancelGrid s (.okRefetchFail e)).error
        = some (errMsgOr e ("Failed to cancel grid"))) ∧
    (∀ (s : BotState) (d : Option String),
      (stopGridTsx s (.httpErr d)).error
        = some (jsOrDefault d ("Failed to stop grid"))) ∧
    (∀ (s : BotState) (e : JsError),
      (stopGridTsx s (.thrown e)).error
        = some (errMsgOr e ("Failed to stop grid"))) ∧
    (∀ (s : BotState) (e : JsError),
      (stopGridTsx s (.okRefetchFail e)).error
        = some (errMsgOr e ("Failed to stop grid"))) := by
  exact ⟨fun s o => rfl, fun s o => rfl, fun s o => rfl, fun s o => rfl,
    fun s d => rfl, fun s e => rfl, fun s d => rfl, fun s e => rfl,
    fun s => rfl, fun s e => rfl, fun s e => rfl,
    fun s d => rfl, fun s e => rfl, fun s e => rfl⟩

/-- C10: the error branch of `createGrid` sets `isRunning` to `false`
unconditionally — for every prior state (a running one included), a
failed create (non-2xx or thrown) leaves the displayed running state
stopped rather than unchanged. -/
theorem C10_createError :
    ∀ (s : BotState) (d : Option String) (e : JsError),
      (createGrid s (.httpErr d)).isRunning = false ∧
      (createGrid s (.thrown e)).isRunning = false := by
  intro s d e
  exact ⟨rfl, rfl⟩

end GridBot
